import Mathlib

/-!
Verification of the phishing-guard heuristic detection engine.

The definitions below are a shallow embedding of the repository's Python
sources, chiefly `app/detector.py` (the FastAPI heuristic engine),
`app/services/url_reputation.py` (the reputation collaborator adapter) and
`phishing_detector.py` (the standalone engine's sender analysis).

Modelling conventions:
* Python strings are Lean `String`s; every string operation used by the code
  (`lower`, `strip`, `split`, slicing, `in`, `find`, `startswith`, `endswith`)
  is re-implemented on `List Char` so that all results are computable and
  kernel-reducible.  `Char.toLower` is ASCII, matching the inputs the code
  handles.
* External collaborators — `tldextract` (registrable-domain extraction),
  `email.utils.parseaddr`, the `URL_REGEX.findall` regular-expression engine,
  the `httpx` network client and `os.getenv` — are modelled as explicit
  function parameters (oracles), following the spec's collaborator boundary.
* The simple regular expressions of `detector.py` (`!{2,}`, `[?!.]{3,}`,
  `\s{3,}`, `[A-Za-z']+`, `[0-9]`, `\d{3,}`, the IPv4 pattern, and the two
  double-escaped patterns `(.)\\1\\1` and `(.)\\1{2,}`) are embedded
  faithfully, including the double escaping: in a Python raw string `\\1`
  denotes a literal backslash followed by `1`, not a backreference.
* Python `set` literals iterate in an order that is fixed within a process
  but varies across processes (string hash randomisation), so the keyword
  sets are modelled as list parameters; a concrete enumeration is the
  canonical constant, and claims about run-to-run stability quantify over
  permutations of it.
* Python floats are modelled as `ℚ`; the only float computation is the
  `unusual_count / len(words)` ratio compared against `0.2`.
-/

/-! ## Generic string machinery (List Char level) -/

/-- Test whether `p` is a prefix of `l` (Python `startswith` on char lists). -/
def startsWithCL (p : List Char) (l : List Char) : Bool :=
  match p, l with
  | [], _ => true
  | _ :: _, [] => false
  | a :: as, b :: bs => a == b && startsWithCL as bs

/-- Test whether `needle` occurs as a contiguous substring of `hay`
(Python `needle in hay`). -/
def substrCL (needle : List Char) : List Char → Bool
  | [] => startsWithCL needle []
  | c :: t => startsWithCL needle (c :: t) || substrCL needle t

/-- Index of the first occurrence of `needle` in `hay`, if any
(Python `hay.find(needle)`, with `none` for `-1`). -/
def findCL (needle : List Char) : List Char → Option Nat
  | [] => if startsWithCL needle [] then some 0 else none
  | c :: t =>
    if startsWithCL needle (c :: t) then some 0
    else (findCL needle t).map (· + 1)

/-- Split a char list at every occurrence of separator `c`, keeping empty
chunks (Python `s.split(c)`). -/
def splitOnCharCL (c : Char) : List Char → List (List Char)
  | [] => [[]]
  | x :: t =>
    let rest := splitOnCharCL c t
    if x == c then [] :: rest
    else
      match rest with
      | [] => [[x]]
      | h :: hs => (x :: h) :: hs

/-- Maximal runs of characters satisfying `p`, left to right, with the
characters not satisfying `p` discarded (the shape of Python
`re.findall` for a pattern like `[A-Za-z']+`, and of `str.split()` with
`p` = "not whitespace"). -/
def runsOfAux (p : Char → Bool) : List Char → List Char → List (List Char)
  | [], acc => if acc.isEmpty then [] else [acc.reverse]
  | c :: t, acc =>
    if p c then runsOfAux p t (c :: acc)
    else if acc.isEmpty then runsOfAux p t []
    else acc.reverse :: runsOfAux p t []

/-- Maximal runs of characters satisfying `p`. -/
def runsOf (p : Char → Bool) (l : List Char) : List (List Char) :=
  runsOfAux p l []

/-- Count the maximal runs of characters satisfying `p` whose length is at
least `m` (the length of Python `re.findall(r"x\x7b2,\x7d", s)` for a
single-char class `x` and threshold `m`). -/
def countRunsAux (p : Char → Bool) (m : Nat) : List Char → Nat → Nat
  | [], run => if m ≤ run then 1 else 0
  | c :: t, run =>
    if p c then countRunsAux p m t (run + 1)
    else (if m ≤ run then 1 else 0) + countRunsAux p m t 0

/-- Count of maximal `p`-runs of length at least `m` in `l`. -/
def countRuns (p : Char → Bool) (m : Nat) (l : List Char) : Nat :=
  countRunsAux p m l 0

/-- Everything after the first occurrence of `c` (Python
`s.split(c, 1)[1]`, defined when `c` occurs). -/
def afterFirstCL (c : Char) : List Char → List Char
  | [] => []
  | x :: t => if x == c then t else afterFirstCL c t

/-! ## String wrappers -/

/-- Python `s.lower()` (ASCII). -/
def strLower (s : String) : String := ⟨s.data.map Char.toLower⟩

/-- Python `needle in hay`. -/
def strContains (hay needle : String) : Bool := substrCL needle.data hay.data

/-- Python `s.startswith(p)`. -/
def strStartsWith (s p : String) : Bool := startsWithCL p.data s.data

/-- Python `s.endswith(p)`. -/
def strEndsWith (s p : String) : Bool :=
  startsWithCL p.data.reverse s.data.reverse

/-- Python `hay.find(needle)` as an `Option`. -/
def strFindOpt (hay needle : String) : Option Nat := findCL needle.data hay.data

/-- Python slice `s[a:b]` for natural bounds (`a` already clamped at 0 by
saturating subtraction at call sites). -/
def strSlice (s : String) (a b : Nat) : String := ⟨(s.data.drop a).take (b - a)⟩

/-- Python `s.strip()`. -/
def pyStrip (s : String) : String :=
  ⟨((s.data.dropWhile Char.isWhitespace).reverse.dropWhile
      Char.isWhitespace).reverse⟩

/-- Python `s.split()`: maximal non-whitespace runs. -/
def pySplitWs (s : String) : List String :=
  (runsOf (fun c => !c.isWhitespace) s.data).map (⟨·⟩)

/-- Python `s.isupper()`: at least one cased character and every cased
character upper-case (ASCII letters are the cased characters here). -/
def pyIsUpper (s : String) : Bool :=
  s.data.any (·.isAlpha) && s.data.all (fun c => !c.isAlpha || c.isUpper)

/-- Python `s.count(c)` for a single character. -/
def countChar (c : Char) (s : String) : Nat := s.data.countP (· == c)

/-! ## Lexicographic order on strings and a deterministic sort,
matching Python `sorted` on strings (code-point lexicographic). -/

/-- Lexicographic comparison of char lists by code point. -/
def clLe : List Char → List Char → Bool
  | [], _ => true
  | _ :: _, [] => false
  | a :: as, b :: bs =>
    if a.toNat < b.toNat then true
    else if b.toNat < a.toNat then false
    else clLe as bs

/-- Python `<=` on strings. -/
def strLeB (a b : String) : Bool := clLe a.data b.data

/-- Propositional form of `strLeB`, used with Mathlib's sorting lemmas. -/
def strLeRel (a b : String) : Prop := strLeB a b = true

instance : DecidableRel strLeRel := fun a b => by
  unfold strLeRel; infer_instance

theorem char_eq_of_toNat_eq {a b : Char} (h : a.toNat = b.toNat) : a = b := by
  cases a; cases b
  simp only [Char.toNat] at h
  congr 1
  exact UInt32.ext h

theorem clLe_total (a b : List Char) : clLe a b = true ∨ clLe b a = true := by
  induction a generalizing b with
  | nil => left; rfl
  | cons x xs ih =>
    cases b with
    | nil => right; rfl
    | cons y ys =>
      simp only [clLe]
      rcases Nat.lt_trichotomy x.toNat y.toNat with h | h | h
      · left; simp [h]
      · have hxy : x = y := char_eq_of_toNat_eq h
        subst hxy
        simpa using ih ys
      · right; simp [h, Nat.lt_asymm h]

theorem clLe_antisymm {a b : List Char} (h1 : clLe a b = true)
    (h2 : clLe b a = true) : a = b := by
  induction a generalizing b with
  | nil =>
    cases b with
    | nil => rfl
    | cons y ys => simp [clLe] at h2
  | cons x xs ih =>
    cases b with
    | nil => simp [clLe] at h1
    | cons y ys =>
      simp only [clLe] at h1 h2
      rcases Nat.lt_trichotomy x.toNat y.toNat with h | h | h
      · simp [h, Nat.lt_asymm h] at h2
      · have hxy : x = y := char_eq_of_toNat_eq h
        subst hxy
        simp at h1 h2
        rw [ih h1 h2]
      · simp [h, Nat.lt_asymm h] at h1

theorem clLe_trans {a b c : List Char} (h1 : clLe a b = true)
    (h2 : clLe b c = true) : clLe a c = true := by
  induction a generalizing b c with
  | nil => rfl
  | cons x xs ih =>
    cases b with
    | nil => simp [clLe] at h1
    | cons y ys =>
      cases c with
      | nil => simp [clLe] at h2
      | cons z zs =>
        simp only [clLe] at h1 h2 ⊢
        rcases Nat.lt_trichotomy x.toNat y.toNat with hxy | hxy | hxy
        · rcases Nat.lt_trichotomy y.toNat z.toNat with hyz | hyz | hyz
          · simp [Nat.lt_trans hxy hyz]
          · have := char_eq_of_toNat_eq hyz; subst this; simp [hxy]
          · simp [hyz, Nat.lt_asymm hyz] at h2
        · have := char_eq_of_toNat_eq hxy; subst this
          simp at h1
          rcases Nat.lt_trichotomy x.toNat z.toNat with hyz | hyz | hyz
          · simp [hyz]
          · have := char_eq_of_toNat_eq hyz; subst this
            simp at h2 ⊢
            exact ih h1 h2
          · simp [hyz, Nat.lt_asymm hyz] at h2
        · simp [hxy, Nat.lt_asymm hxy] at h1

instance : IsTotal String strLeRel := ⟨fun a b => clLe_total a.data b.data⟩

instance : IsTrans String strLeRel :=
  ⟨fun _ _ _ h1 h2 => clLe_trans h1 h2⟩

instance : IsAntisymm String strLeRel :=
  ⟨fun a b h1 h2 => by
    cases a; cases b
    exact congrArg String.mk (clLe_antisymm h1 h2)⟩

/-- Python `sorted` on a list of strings. -/
def sortStrs (l : List String) : List String := List.insertionSort strLeRel l

theorem sortStrs_eq_of_perm {l₁ l₂ : List String} (h : l₁.Perm l₂) :
    sortStrs l₁ = sortStrs l₂ := by
  exact List.eq_of_perm_of_sorted
    (((List.perm_insertionSort strLeRel l₁).trans h).trans
      (List.perm_insertionSort strLeRel l₂).symm)
    (List.sorted_insertionSort strLeRel l₁)
    (List.sorted_insertionSort strLeRel l₂)

/-! ## Order-preserving first-occurrence deduplication
(Python `dict.fromkeys`, and the `if url not in urls: urls.append(url)`
loop of `_collect_urls`). -/

/-- One step of the appending deduplication loop. -/
def dedupStep (acc : List String) (x : String) : List String :=
  if x ∈ acc then acc else acc ++ [x]

/-- Python `list(dict.fromkeys(l))`: first-occurrence deduplication. -/
def pyDedup (l : List String) : List String := l.foldl dedupStep []

/-! ## Data model (`app/models.py`) -/

/-- Severity / risk enumeration (`RiskLevel` in `app/models.py`). -/
inductive RiskLevel
  | low
  | medium
  | high
deriving DecidableEq

/-- A detector finding (`Finding` in `app/models.py`). -/
structure Finding where
  category : String
  description : String
  severity : RiskLevel
  evidence : List String
deriving DecidableEq

/-- A per-URL reputation insight (`URLInsight` in `app/models.py`). -/
structure URLInsight where
  url : String
  reputation : Option String
  status : Option String
  details : Option String
  findings : List String
deriving DecidableEq

/-- The analysis request (`EmailAnalysisRequest` in `app/models.py`). -/
structure EmailAnalysisRequest where
  subject : String
  body : String
  sender : Option String
  sender_name : Option String
  reply_to : Option String
  urls : List String
  attachments : List String
  headers : Option String
deriving DecidableEq

/-- The analysis response (`EmailAnalysisResponse` in `app/models.py`).
The Python `score` is a float holding a capped sum of integer weights, so a
`Nat` represents it exactly. -/
structure EmailAnalysisResponse where
  overall_risk : RiskLevel
  score : Nat
  findings : List Finding
  url_insights : List URLInsight
  recommendations : List String
deriving DecidableEq

/-! ## Lexicons of `app/detector.py`

Python's set literals have no canonical iteration order; each constant below
fixes one enumeration (in source order).  Detectors that are sensitive to the
enumeration receive the list as a parameter. -/

/-- One enumeration of `URGENT_PHRASES` (`app/detector.py`). -/
def URGENT_PHRASES : List String :=
  ["act now", "asap", "bank verification needed", "urgent", "immediately",
   "limited time", "suspend", "verify your account", "password expires",
   "account locked", "payment required"]

/-- One enumeration of `SENSITIVE_KEYWORDS` (`app/detector.py`). -/
def SENSITIVE_KEYWORDS : List String :=
  ["password", "passcode", "credit card", "debit card", "social security",
   "ssn", "account number", "pin", "verification code", "bank routing",
   "tax id"]

/-- One enumeration of `SUSPICIOUS_ATTACHMENT_EXTENSIONS`
(`app/detector.py`); only used through order-insensitive `any`. -/
def SUSPICIOUS_ATTACHMENT_EXTENSIONS : List String :=
  [".exe", ".scr", ".bat", ".js", ".vbs", ".cmd", ".com", ".pif", ".jar",
   ".cpl", ".ps1"]

/-- The `COMMON_ENGLISH_WORDS` frequency lexicon (`app/detector.py`); only
used through membership tests. -/
def COMMON_ENGLISH_WORDS : List String :=
  ["the", "be", "to", "of", "and", "a", "in", "that", "have", "i", "it",
   "for", "not", "on", "with", "he", "as", "you", "do", "at", "this", "but",
   "his", "by", "from", "they", "we", "say", "her", "she", "or", "an",
   "will", "my", "one", "all", "would", "there", "their"]

/-- The `COMMON_BIGRAMS` set (`app/detector.py`); only used through
membership tests. -/
def COMMON_BIGRAMS : List (Char × Char) :=
  [('t', 'h'), ('h', 'e'), ('a', 'n'), ('e', 'r'), ('r', 'e'), ('i', 'n'),
   ('o', 'n'), ('n', 'd'), ('e', 'n'), ('t', 'o'), ('e', 's'), ('o', 'f')]

/-! ## Collaborator oracles

`tldextract`, `email.utils.parseaddr`, the `URL_REGEX.findall` regex engine
and the reputation lookup are external to the heuristic core; they enter the
embedding as explicit functions bundled in `Env`. -/

/-- External collaborators and set-iteration orders consumed by
`analyze_email`.

* `parse_addr` models `email.utils.parseaddr(x)[1]` (empty string when the
  address does not parse);
* `domain_from_url` models `_domain_from_url` (built on `tldextract`), with
  `none` for Python `None`;
* `url_matches` models `URL_REGEX.findall(body)`;
* `lookup` models `lookup_urls` as invoked by `analyze_email` (the stubbed
  reputation collaborator);
* `urgent_phrases` and `sensitive_keywords` are the iteration orders of the
  two keyword sets in the running process. -/
structure Env where
  parse_addr : String → String
  domain_from_url : String → Option String
  url_matches : String → List String
  lookup : List String → List URLInsight
  urgent_phrases : List String
  sensitive_keywords : List String

/-! ## URL collection (`_collect_urls`) -/

/-- Canonicalisation applied to each body match in `_collect_urls`:
a match whose lower-casing starts with `www.` gets `https://` prepended. -/
def canon_url (m : String) : String :=
  if strStartsWith (strLower m) "www." then "https://" ++ m else m

/-- Embedding of `_collect_urls` (`app/detector.py` lines 86–95): the
explicit `urls` field is deduplicated with `dict.fromkeys`, then every body
match is canonicalised and appended unless already present. -/
def collect_urls (env : Env) (payload : EmailAnalysisRequest) : List String :=
  (env.url_matches payload.body).foldl
    (fun acc m => dedupStep acc (canon_url m))
    (pyDedup payload.urls)

/-! ## Urgency detector (`_detect_urgency`) -/

/-- Embedding of `_detect_urgency` (`app/detector.py` lines 98–126). -/
def detect_urgency (env : Env) (payload : EmailAnalysisRequest) :
    List Finding :=
  let text := strLower (payload.subject ++ "\n" ++ payload.body)
  let evidence := env.urgent_phrases.filter
    (fun phrase => strContains text phrase && decide (3 < phrase.length))
  let excessive_caps := (pySplitWs payload.body).countP
    (fun word => pyIsUpper word && decide (3 < word.length))
  let exclamation_runs := countRuns (· == '!') 2 payload.body.data
  let details :=
    (if evidence.isEmpty then []
     else
       let joined := String.intercalate ", " (sortStrs evidence)
       [s!"Urgency phrases detected: {joined}"]) ++
    (if 3 ≤ excessive_caps then ["Multiple all-caps words detected."]
     else []) ++
    (if exclamation_runs ≠ 0 then ["Repeated exclamation marks found."]
     else [])
  if details.isEmpty then []
  else
    [{ category := "Urgency Tactics"
       description := "Signals of artificial urgency present in subject/body."
       severity := if details.length = 1 then RiskLevel.medium
                   else RiskLevel.high
       evidence := details }]

/-! ## Sensitive-data detector (`_detect_sensitive_requests`) -/

/-- Context snippet for a single keyword, as built inside `_extract_context`
(`app/detector.py` lines 304–313) with the default window of 40: the slice
of the original body around the first occurrence of the keyword in the
lower-cased body, stripped; `none` when the keyword is absent. -/
def context_snippet (body : String) (keyword : String) : Option String :=
  match strFindOpt (strLower body) keyword with
  | none => none
  | some start =>
    some (pyStrip (strSlice body (start - 40) (start + keyword.length + 40)))

/-- Embedding of `_extract_context` (`app/detector.py` lines 304–313). -/
def extract_context (body : String) (keywords : List String) : List String :=
  keywords.filterMap (context_snippet body)

/-- The keyword hits of `_detect_sensitive_requests`: the sensitive keywords
(in set-iteration order) that occur in the lower-cased body. -/
def sensitive_hits (env : Env) (payload : EmailAnalysisRequest) :
    List String :=
  env.sensitive_keywords.filter
    (fun kw => strContains (strLower payload.body) kw)

/-- Embedding of `_detect_sensitive_requests`
(`app/detector.py` lines 167–182). -/
def detect_sensitive_requests (env : Env)
    (payload : EmailAnalysisRequest) : List Finding :=
  let hits := sensitive_hits env payload
  if hits.isEmpty then []
  else
    let context_snippets := extract_context payload.body hits
    [{ category := "Sensitive Data Request"
       description :=
         "Email references requests for sensitive or credential information."
       severity := RiskLevel.high
       evidence := if context_snippets.isEmpty then hits
                   else context_snippets }]

/-! ## Sender anomaly detector (`_detect_sender_anomalies`) -/

/-- Embedding of `_normalize_email` (`app/detector.py` lines 345–349);
`parse_addr` is the `parseaddr` collaborator.  Python falsiness of the
empty string is modelled explicitly. -/
def normalize_email (parse_addr : String → String) :
    Option String → Option String
  | none => none
  | some s =>
    if s = "" then none
    else
      let parsed := parse_addr s
      if parsed = "" then none else some (strLower parsed)

/-- Embedding of `_domain_from_email` (`app/detector.py` lines 316–319):
everything after the last `@`, lower-cased and stripped; `none` when there
is no `@`. -/
def domain_from_email (email_address : String) : Option String :=
  if strContains email_address "@" then
    some (pyStrip (strLower
      ⟨(splitOnCharCL '@' email_address.data).getLastD []⟩))
  else none

/-- The reply-to comparison evidence of `_detect_sender_anomalies`: at most
one message, produced when both domains are present (and truthy) and
differ. -/
def sender_reply_evidence (sender_domain reply_to_domain : Option String) :
    List String :=
  match sender_domain, reply_to_domain with
  | some sd, some rd =>
    if sd ≠ "" ∧ rd ≠ "" ∧ sd ≠ rd then
      [s!"Sender domain `{sd}` differs from reply-to `{rd}`."]
    else []
  | _, _ => []

/-- The URL-domain comparison evidence of `_detect_sender_anomalies`: at
most one message, produced when the sender domain is present (and truthy),
some URL domain resolved, and the sender domain is not among them; the
message samples up to three sorted domains. -/
def sender_url_evidence (sender_domain : Option String)
    (url_domains : List String) : List String :=
  match sender_domain with
  | some sd =>
    if sd ≠ "" ∧ ¬url_domains.isEmpty ∧ sd ∉ url_domains then
      let sample :=
        String.intercalate ", " ((sortStrs (pyDedup url_domains)).take 3)
      [s!"Links point to domains ({sample}) that do not match sender domain `{sd}`."]
    else []
  | none => []

/-- Domain of a normalized optional address, `None` propagating. -/
def opt_domain : Option String → Option String
  | some e => domain_from_email e
  | none => none

/-- Embedding of `_detect_sender_anomalies`
(`app/detector.py` lines 129–164).  This detector performs exactly two
comparisons: sender domain vs. reply-to domain, and sender domain vs. the
set of URL domains. -/
def detect_sender_anomalies (env : Env) (payload : EmailAnalysisRequest)
    (urls : List String) : List Finding :=
  let sender_domain :=
    opt_domain (normalize_email env.parse_addr payload.sender)
  let reply_to_domain :=
    opt_domain (normalize_email env.parse_addr payload.reply_to)
  let url_domains : List String :=
    (urls.filterMap env.domain_from_url).filter (· ≠ "")
  let evidence :=
    sender_reply_evidence sender_domain reply_to_domain ++
    sender_url_evidence sender_domain url_domains
  if evidence.isEmpty then []
  else
    [{ category := "Sender Domain Mismatch"
       description :=
         "Sender information conflicts with link or reply-to domains."
       severity := if 1 < evidence.length then RiskLevel.high
                   else RiskLevel.medium
       evidence := evidence }]

/-! ## Suspicious-links detector (`_detect_suspicious_links`) -/

/-- Embedding of `_looks_like_ip` (`app/detector.py` lines 332–333): a full
match of four dot-separated groups of one to three digits. -/
def looks_like_ip (domain : String) : Bool :=
  let parts := splitOnCharCL '.' domain.data
  parts.length == 4 &&
    parts.all (fun p => 1 ≤ p.length && p.length ≤ 3 && p.all (·.isDigit))

/-- Scanner for the Python regex `(.)\\1\x7b2,\x7d` as written in
`_has_typosquatting_pattern` (`app/detector.py` line 341).  In a raw string
`\\1` is a literal backslash followed by `1`, not a backreference, so the
pattern matches any character followed by a literal backslash and at least
two `1` characters. -/
def hasCharBsOneOne : List Char → Bool
  | [] => false
  | _ :: rest => startsWithCL ['\\', '1', '1'] rest || hasCharBsOneOne rest

/-- The fixed suspicious pattern list of `_has_typosquatting_pattern`. -/
def suspicious_patterns : List String :=
  ["paypal-secure", "micros0ft", "app1e", "verificati0n"]

/-- Embedding of `_has_typosquatting_pattern`
(`app/detector.py` lines 336–342), including the double-escaped regex. -/
def has_typosquatting_pattern (domain : String) : Bool :=
  suspicious_patterns.any (fun pat => strContains domain pat) ||
    hasCharBsOneOne (domain.data.filter (· ≠ '.'))

/-- One step of the URL loop in `_detect_suspicious_links`
(`app/detector.py` lines 194–207), threading the evidence list and the
running severity. -/
def suspicious_link_step (domain_from_url : String → Option String)
    (acc : List String × RiskLevel) (url : String) :
    List String × RiskLevel :=
  match domain_from_url url with
  | none => acc
  | some domain =>
    if domain = "" then acc
    else
      let acc1 :=
        if looks_like_ip domain then
          (acc.1 ++ [s!"URL `{url}` uses raw IP address."], RiskLevel.high)
        else if has_typosquatting_pattern domain then
          (acc.1 ++ [s!"Domain `{domain}` appears typosquatted."],
           RiskLevel.high)
        else acc
      if strStartsWith (strLower url) "http://" then
        (acc1.1 ++ [s!"URL `{url}` is not served over HTTPS."], acc1.2)
      else acc1

/-- Embedding of `_detect_suspicious_links`
(`app/detector.py` lines 185–222). -/
def detect_suspicious_links (env : Env) (payload : EmailAnalysisRequest)
    (urls : List String) : List Finding :=
  let _ := payload
  if urls.isEmpty then []
  else
    let acc := urls.foldl (suspicious_link_step env.domain_from_url)
      ([], RiskLevel.medium)
    let evidence := acc.1 ++
      (if 5 < urls.length then
        let n := toString urls.length
        [s!"Email contains a high number of links ({n})."]
       else [])
    if evidence.isEmpty then []
    else
      [{ category := "Suspicious Links"
         description := "Potentially malicious URLs detected in message body."
         severity := acc.2
         evidence := evidence }]

/-! ## Attachment detector (`_detect_attachment_risk`) -/

/-- Embedding of `_detect_attachment_risk`
(`app/detector.py` lines 225–244). -/
def detect_attachment_risk (payload : EmailAnalysisRequest) : List Finding :=
  if payload.attachments.isEmpty then []
  else
    let flagged := payload.attachments.filter (fun name =>
      SUSPICIOUS_ATTACHMENT_EXTENSIONS.any
        (fun ext => strEndsWith (strLower name) ext))
    if flagged.isEmpty then []
    else
      [{ category := "Suspicious Attachments"
         description := "Attachments carry extensions commonly used in malware."
         severity := RiskLevel.high
         evidence := flagged }]

/-! ## Language detector (`_detect_language_anomalies`) -/

/-- Scanner for the Python regex `(.)\\1\\1` as written in
`_estimate_spelling_issues` (`app/detector.py` line 295): any character
followed by the literal four characters backslash, `1`, backslash, `1`. -/
def hasCharBsOneBsOne : List Char → Bool
  | [] => false
  | _ :: rest =>
    startsWithCL ['\\', '1', '\\', '1'] rest || hasCharBsOneBsOne rest

/-- Embedding of the inner `looks_unusual` of `_estimate_spelling_issues`
(`app/detector.py` lines 287–298), including the double-escaped regex. -/
def looks_unusual (token : String) : Bool :=
  let t := strLower token
  if t.length ≤ 3 then false
  else if COMMON_ENGLISH_WORDS.contains t then false
  else if t.data.any (·.isDigit) then true
  else if hasCharBsOneBsOne t.data then true
  else
    let rare_bigrams := (t.data.zip t.data.tail).countP
      (fun bg => !COMMON_BIGRAMS.contains bg)
    max 2 ((t.length + 2) / 3) ≤ rare_bigrams

/-- Embedding of `_estimate_spelling_issues`
(`app/detector.py` lines 279–301); the Python float ratio is a rational. -/
def estimate_spelling_issues (words : List String) : ℚ :=
  if words.isEmpty then 0
  else (words.countP looks_unusual : ℚ) / (words.length : ℚ)

/-- Tokenisation `re.findall(r"[A-Za-z']+", text)` used by
`_detect_language_anomalies`. -/
def alpha_words (text : String) : List String :=
  (runsOf (fun c => c.isAlpha || c == '\'') text.data).map (⟨·⟩)

/-- Embedding of `_detect_language_anomalies`
(`app/detector.py` lines 247–276). -/
def detect_language_anomalies (payload : EmailAnalysisRequest) :
    List Finding :=
  let text := payload.body
  let words := alpha_words text
  if words.length < 20 then []
  else
    let misspell_indicator := estimate_spelling_issues words
    let punctuation_runs :=
      countRuns (fun c => c == '?' || c == '!' || c == '.') 3 text.data
    let inconsistent_spacing := countRuns (·.isWhitespace) 3 text.data
    let evidence :=
      (if (1 : ℚ) / 5 < misspell_indicator then
        ["High ratio of uncommon words detected."] else []) ++
      (if punctuation_runs ≠ 0 then
        ["Repeated punctuation suggests informal tone."] else []) ++
      (if inconsistent_spacing ≠ 0 then
        ["Irregular spacing/padding detected within the body."] else [])
    if evidence.isEmpty then []
    else
      [{ category := "Grammar & Style"
         description :=
           "Writing quality indicators suggest potential social engineering."
         severity := if evidence.length = 1 then RiskLevel.low
                     else RiskLevel.medium
         evidence := evidence }]

/-! ## Aggregation (`_score_findings`, `_build_recommendations`,
`analyze_email`) -/

/-- The weight table of `_score_findings` (`app/detector.py` lines 353–357). -/
def severity_weight : RiskLevel → Nat
  | RiskLevel.low => 10
  | RiskLevel.medium => 20
  | RiskLevel.high => 35

/-- Embedding of `_score_findings` (`app/detector.py` lines 352–366). -/
def score_findings (findings : List Finding) : Nat × RiskLevel :=
  let score :=
    min 100 ((findings.map (fun f => severity_weight f.severity)).sum)
  let risk :=
    if 60 ≤ score then RiskLevel.high
    else if 30 ≤ score then RiskLevel.medium
    else RiskLevel.low
  (score, risk)

/-- Embedding of `_build_recommendations`
(`app/detector.py` lines 369–391). -/
def build_recommendations (risk : RiskLevel) (findings : List Finding)
    (has_urls : Bool) : List String :=
  let recommendations :=
    (if risk = RiskLevel.high then
      ["Do not interact with the email. Report it to your security team."]
     else []) ++
    (if findings.any (fun f => f.category == "Sensitive Data Request") then
      ["Never share credentials or personal information via email links."]
     else []) ++
    (if has_urls then
      ["Hover over links to inspect destinations before clicking."]
     else []) ++
    (if findings.any (fun f => f.category == "Sender Domain Mismatch") then
      ["Verify the sender through a known, trusted communication channel."]
     else [])
  if recommendations.isEmpty then
    ["Email appears lower risk but remain vigilant."]
  else recommendations

/-- The concatenated findings of the six detectors in the order
`analyze_email` runs them. -/
def all_findings (env : Env) (payload : EmailAnalysisRequest) :
    List Finding :=
  detect_urgency env payload ++
  detect_sensitive_requests env payload ++
  detect_sender_anomalies env payload (collect_urls env payload) ++
  detect_suspicious_links env payload (collect_urls env payload) ++
  detect_attachment_risk payload ++
  detect_language_anomalies payload

/-- Embedding of `analyze_email` (`app/detector.py` lines 57–83). -/
def analyze_email (env : Env) (payload : EmailAnalysisRequest) :
    EmailAnalysisResponse :=
  let urls := collect_urls env payload
  let findings := all_findings env payload
  let sr := score_findings findings
  let url_insights := if urls.isEmpty then [] else env.lookup urls
  let recommendations := build_recommendations sr.2 findings (!urls.isEmpty)
  { overall_risk := sr.2
    score := sr.1
    findings := findings
    url_insights := url_insights
    recommendations := recommendations }

/-! ## Reputation collaborator adapter
(`app/services/url_reputation.py`)

The `try` block of `lookup_urls` covers only `client.get` and
`response.raise_for_status`, catching `httpx.HTTPError`.  The subsequent
`response.json()` call and the whole of `_parse_urlscan_response` run
outside it, so an undecodable 2xx body raises `json.JSONDecodeError`, and a
decodable body of the wrong shape raises as well (for instance
`AttributeError` on `payload.get`), aborting the entire lookup.  To
represent these abort paths, response bodies are modelled as decoded JSON
documents, the dictionary operations of `_parse_urlscan_response` are
embedded as fallible Python operations, and `lookup_urls` returns
`Except String (List URLInsight)` — an `Except.error` is an uncaught
exception escaping the function.  Exception payloads are descriptive
strings standing for the Python exception (the `json.JSONDecodeError` text
comes verbatim from the oracle); JSON numbers are modelled as integers. -/

/-- A decoded JSON document. -/
inductive Json where
  | null
  | bool (b : Bool)
  | int (n : Int)
  | str (s : String)
  | arr (xs : List Json)
  | obj (kvs : List (String × Json))

/-- Python type name of a decoded JSON value, used in exception
messages. -/
def pyTypeName : Json → String
  | Json.null => "NoneType"
  | Json.bool _ => "bool"
  | Json.int _ => "int"
  | Json.str _ => "str"
  | Json.arr _ => "list"
  | Json.obj _ => "dict"

/-- Python truthiness of a decoded JSON value. -/
def pyTruthy : Json → Bool
  | Json.null => false
  | Json.bool b => b
  | Json.int n => n != 0
  | Json.str s => s != ""
  | Json.arr xs => !xs.isEmpty
  | Json.obj kvs => !kvs.isEmpty

/-- Python `value == 0` for a decoded JSON value (`False == 0` is `True`
in Python; only integer numbers are modelled). -/
def pyEqZero : Json → Bool
  | Json.int n => n == 0
  | Json.bool b => b == false
  | _ => false

/-- Python `d.get(key, default)`: field lookup on a dict (`json.loads`
keeps the last duplicate key), an `AttributeError` on any other value —
this is the raise `_parse_urlscan_response` hits on a non-object
payload. -/
def pyDictGet (j : Json) (key : String) (default : Json) :
    Except String Json :=
  match j with
  | Json.obj kvs =>
    Except.ok ((kvs.foldl
      (fun acc kv => if kv.1 = key then some kv.2 else acc) none).getD
        default)
  | _ =>
    Except.error
      ("AttributeError: '" ++ pyTypeName j ++
        "' object has no attribute 'get'")

/-- Python `value[0]` (`results[0]` in `_parse_urlscan_response`): head of
a list, first character of a string, an exception otherwise. -/
def pyIndex0 : Json → Except String Json
  | Json.arr (x :: _) => Except.ok x
  | Json.arr [] => Except.error "IndexError: list index out of range"
  | Json.str s =>
    match s.data with
    | c :: _ => Except.ok (Json.str ⟨[c]⟩)
    | [] => Except.error "IndexError: string index out of range"
  | Json.obj _ => Except.error "KeyError: 0"
  | j =>
    Except.error
      ("TypeError: '" ++ pyTypeName j ++ "' object is not subscriptable")

/-- Python `sep.join(value)`: joins a list of strings, the characters of a
string, or the keys of a dict; `TypeError` on non-iterables and on
non-string items. -/
def pyJoin (sep : String) : Json → Except String String
  | Json.arr xs =>
    if xs.all (fun j => match j with | Json.str _ => true | _ => false) then
      Except.ok (String.intercalate sep
        (xs.filterMap
          (fun j => match j with | Json.str t => some t | _ => none)))
    else Except.error "TypeError: sequence item: expected str instance"
  | Json.str s =>
    Except.ok
      (String.intercalate sep (s.data.map (fun c => (⟨[c]⟩ : String))))
  | Json.obj kvs => Except.ok (String.intercalate sep (kvs.map (·.1)))
  | j =>
    Except.error
      ("TypeError: can only join an iterable, not '" ++ pyTypeName j ++ "'")

mutual
/-- Python `repr` of a decoded JSON value. -/
def pyRepr : Json → String
  | Json.null => "None"
  | Json.bool true => "True"
  | Json.bool false => "False"
  | Json.int n => toString n
  | Json.str s => "'" ++ s ++ "'"
  | Json.arr xs => "[" ++ String.intercalate ", " (pyReprList xs) ++ "]"
  | Json.obj kvs =>
    "\x7b" ++ String.intercalate ", " (pyReprObjList kvs) ++ "\x7d"
/-- Helper of `pyRepr`: `repr` of each element of a JSON array. -/
def pyReprList : List Json → List String
  | [] => []
  | x :: t => pyRepr x :: pyReprList t
/-- Helper of `pyRepr`: rendered entries of a JSON object. -/
def pyReprObjList : List (String × Json) → List String
  | [] => []
  | kv :: t => ("'" ++ kv.1 ++ "': " ++ pyRepr kv.2) :: pyReprObjList t
end

/-- Python `str()` as applied by f-string interpolation. -/
def pyStr : Json → String
  | Json.str s => s
  | j => pyRepr j

/-- A 2xx HTTP response (`raise_for_status` has passed); `json` is the
outcome of `response.json()` — the decoded document, or the message of the
`json.JSONDecodeError` the call raises on an undecodable body. -/
structure HttpResponse where
  json : Except String Json

/-- The placeholder insight produced per URL when no `URLSCAN_API_KEY` is
configured. -/
def unavailable_insight (url : String) : URLInsight :=
  { url := url
    reputation := none
    status := some "unavailable"
    details :=
      some "No URLSCAN_API_KEY configured; skipped live reputation lookup."
    findings := [] }

/-- The insight recorded for a URL with no extractable domain. -/
def unknown_insight (url : String) : URLInsight :=
  { url := url
    reputation := none
    status := some "unknown"
    details := some "Unable to extract domain for reputation check."
    findings := [] }

/-- The insight recorded when the HTTP interaction raises
`httpx.HTTPError` — the one exception class the loop catches. -/
def http_error_insight (url exc : String) : URLInsight :=
  { url := url
    reputation := none
    status := some "error"
    details := some ("urlscan lookup failed: " ++ exc)
    findings := [] }

/-- Field computation of `_parse_urlscan_response`
(`app/services/url_reputation.py` lines 67–101), each match mirroring one
fallible Python operation in source order; an `Except.error` is an
exception the function raises, none of which `lookup_urls` catches.
`none` encodes the `total == 0` early return; `some` carries the
reputation, status, rendered total and findings of the final return. -/
def parse_urlscan_fields (payload : Json) :
    Except String (Option (String × String × String × List String)) :=
  match pyDictGet payload "total" (Json.int 0) with
  | Except.error exc => Except.error exc
  | Except.ok total =>
    match pyEqZero total with
    | true => Except.ok none
    | false =>
      match pyDictGet payload "results" (Json.arr []) with
      | Except.error exc => Except.error exc
      | Except.ok results =>
        match
          (match pyTruthy results with
           | true => pyIndex0 results
           | false => Except.ok (Json.obj [])) with
        | Except.error exc => Except.error exc
        | Except.ok latest =>
          match pyDictGet latest "verdicts" (Json.obj []) with
          | Except.error exc => Except.error exc
          | Except.ok verdicts =>
            match pyDictGet verdicts "overall" (Json.obj []) with
            | Except.error exc => Except.error exc
            | Except.ok overall =>
              match pyDictGet overall "malicious" Json.null with
              | Except.error exc => Except.error exc
              | Except.ok malicious =>
                match pyDictGet overall "score" Json.null with
                | Except.error exc => Except.error exc
                | Except.ok score =>
                  match pyDictGet overall "categories" Json.null with
                  | Except.error exc => Except.error exc
                  | Except.ok cats0 =>
                    let categories :=
                      if pyTruthy cats0 then cats0 else Json.arr []
                    let status :=
                      if pyTruthy malicious then "malicious" else "review"
                    let rep :=
                      if pyTruthy malicious then "block" else "suspicious"
                    match
                      (match pyTruthy categories with
                       | true =>
                         match pyJoin ", " categories with
                         | Except.error exc => Except.error exc
                         | Except.ok joined =>
                           Except.ok [s!"Categories: {joined}"]
                       | false => Except.ok []) with
                    | Except.error exc => Except.error exc
                    | Except.ok fnds1 =>
                      let fnds2 :=
                        match score with
                        | Json.null => []
                        | sc =>
                          let scs := pyStr sc
                          [s!"Verdict score: {scs}"]
                      let totalStr := pyStr total
                      Except.ok
                        (some (rep, status, totalStr, fnds1 ++ fnds2))

/-- Embedding of `_parse_urlscan_response`: the fields computed above,
attached to the URL at the two return sites of the Python function. -/
def parse_urlscan_response (url : String) (payload : Json) :
    Except String URLInsight :=
  match parse_urlscan_fields payload with
  | Except.error exc => Except.error exc
  | Except.ok none =>
    Except.ok
      { url := url
        reputation := some "no-data"
        status := some "clean"
        details := some "No prior scans found for this domain."
        findings := [] }
  | Except.ok (some fields) =>
    Except.ok
      { url := url
        reputation := some fields.1
        status := some fields.2.1
        details :=
          some ("Observed in " ++ fields.2.2.1 ++ " urlscan submission(s).")
        findings := fields.2.2.2 }

/-- One iteration of the keyed loop of `lookup_urls` for one URL:
`unknown` when no domain extracts, a caught `httpx.HTTPError` becomes an
`error` insight, and everything after `raise_for_status` (the
`response.json()` decode and the response parsing) runs outside the `try`,
so its failures escape as `Except.error`. -/
def insight_for_url (domain_from_url : String → Option String)
    (http : String → Except String HttpResponse) (url : String) :
    Except String URLInsight :=
  match domain_from_url url with
  | none => Except.ok (unknown_insight url)
  | some domain =>
    if domain = "" then Except.ok (unknown_insight url)
    else
      match http domain with
      | Except.error exc => Except.ok (http_error_insight url exc)
      | Except.ok response =>
        match response.json with
        | Except.error exc => Except.error exc
        | Except.ok payload => parse_urlscan_response url payload

/-- Embedding of `lookup_urls` (`app/services/url_reputation.py` lines
14–64).  `api_key` models `os.getenv("URLSCAN_API_KEY")` (with Python
falsiness of `None` and of the empty string); `http` models `client.get`
plus `raise_for_status`, whose `httpx.HTTPError` is the only exception the
loop catches.  The result is `Except.error` exactly when some URL's
uncaught decode/parse step raises, aborting the whole lookup. -/
def lookup_urls (api_key : Option String)
    (domain_from_url : String → Option String)
    (http : String → Except String HttpResponse)
    (urls : List String) : Except String (List URLInsight) :=
  if urls.isEmpty then Except.ok []
  else
    match api_key with
    | none => Except.ok (urls.map unavailable_insight)
    | some k =>
      if k = "" then Except.ok (urls.map unavailable_insight)
      else urls.mapM (insight_for_url domain_from_url http)

/-! ## Standalone engine's sender analysis
(`phishing_detector.py`, class `PhishingDetector`)

Only `_analyze_sender` is embedded; it is the sole place in the repository
where the sender domain is evaluated on its own.  `tldextract` enters as a
`suffix_of` oracle returning the public suffix of a domain (empty string
when `tldextract` finds none, matching the falsiness test in the code). -/

/-- The `SUSPICIOUS_TLDS` blocklist of `PhishingDetector`. -/
def SUSPICIOUS_TLDS : List String :=
  [".xyz", ".top", ".work", ".click", ".link", ".download", ".gq", ".tk",
   ".ml"]

/-- The `LEGITIMATE_DOMAINS` brand map of `PhishingDetector`
(a Python dict, which iterates in insertion order). -/
def LEGITIMATE_DOMAINS : List (String × List String) :=
  [("paypal", ["paypal.com"]),
   ("amazon", ["amazon.com"]),
   ("microsoft", ["microsoft.com", "outlook.com", "live.com"]),
   ("apple", ["apple.com", "icloud.com"]),
   ("google", ["google.com", "gmail.com"]),
   ("bank", ["bankofamerica.com", "chase.com", "wellsfargo.com",
             "citibank.com"])]

/-- The `common_misspellings` list inside `_analyze_sender`. -/
def COMMON_MISSPELLINGS : List String :=
  ["g00gle", "micros0ft", "amazn", "paypa1"]

/-- Scanner for the Python regex `\d\x7b3,\x7d`: three or more consecutive
digits somewhere in the text (`re.search`).  This pattern is written with a
single backslash in the source and therefore really is a digit run. -/
def hasDigitRun3 : List Char → Bool
  | a :: b :: c :: t =>
    (a.isDigit && b.isDigit && c.isDigit) || hasDigitRun3 (b :: c :: t)
  | _ => false

/-- Result dictionary of `PhishingDetector._analyze_sender`; `severity` is
one of the strings "high"/"medium"/"low" in this engine. -/
structure SenderAnalysis where
  detected : Bool
  issues : List String
  domain : Option String
  severity : Option String
deriving DecidableEq

/-- The `tld` string computed by `_analyze_sender`: a dot prepended to the
`tldextract` suffix, or the empty string when there is no suffix. -/
def tld_of (suffix_of : String → String) (domain : String) : String :=
  let sfx := suffix_of domain
  if sfx = "" then "" else "." ++ sfx

/-- Issue list of `_analyze_sender` for a sender that contains `@`, in the
order the code appends them: suspicious TLD, brand spoofing (dict order),
excessive subdomains, digit runs, known misspellings. -/
def sender_issues (suffix_of : String → String) (domain : String) :
    List String :=
  let tld := tld_of suffix_of domain
  (if SUSPICIOUS_TLDS.contains tld then [s!"Suspicious TLD: {tld}"]
   else []) ++
  (LEGITIMATE_DOMAINS.filterMap (fun cl =>
    if strContains domain cl.1 &&
        !(cl.2.any (fun legit => strContains domain legit)) then
      let company := cl.1
      some s!"Possible {company} domain spoofing"
    else none)) ++
  (if 3 < countChar '.' domain then
    ["Excessive subdomains (possible obfuscation)"] else []) ++
  (if hasDigitRun3 domain.data then ["Domain contains multiple numbers"]
   else []) ++
  (if COMMON_MISSPELLINGS.any (fun m => strContains domain m) then
    ["Likely domain name misspelling"] else [])

/-- Embedding of `PhishingDetector._analyze_sender`
(`phishing_detector.py` lines 127–173).  Note the code extracts the domain
from the raw (not lower-cased) sender via `sender.split('@', 1)`. -/
def analyze_sender (suffix_of : String → String) (sender : String) :
    SenderAnalysis :=
  if sender = "" then ⟨false, [], none, none⟩
  else if !strContains sender "@" then
    ⟨true, ["Invalid email format"], none, some "high"⟩
  else
    let domain : String := ⟨afterFirstCL '@' sender.data⟩
    let issues := sender_issues suffix_of domain
    { detected := !issues.isEmpty
      issues := issues
      domain := some domain
      severity := some (if 2 ≤ issues.length then "high"
                        else if issues.length = 1 then "medium" else "low") }

/-! ## Spec-side definitions

These definitions follow the wording of the specification (not the code)
and exist to be compared with the code-derived definitions above. -/

/-- Risk-level thresholds as the spec states them: score ≥ 60 gives high,
otherwise score ≥ 30 gives medium, otherwise low. -/
def risk_of_score (score : Nat) : RiskLevel :=
  if 60 ≤ score then RiskLevel.high
  else if 30 ≤ score then RiskLevel.medium
  else RiskLevel.low

/-- Spec reading of the repeated-character clauses ("3+ repeated identical
characters", "a run of 3 identical characters"): some character occurs at
least three times consecutively. -/
def repeated_char_run3 : List Char → Bool
  | a :: b :: c :: t => (a == b && b == c) || repeated_char_run3 (b :: c :: t)
  | _ => false

/-- Predicate used to state the sticky-severity property of
`_detect_suspicious_links`: the URL contributes IP-literal or typosquat
evidence (its domain resolves to a non-empty string that looks like a raw
IPv4 address or matches the typosquatting check). -/
def url_danger (domain_from_url : String → Option String) (url : String) :
    Bool :=
  match domain_from_url url with
  | none => false
  | some d =>
    if d = "" then false
    else looks_like_ip d || has_typosquatting_pattern d

/-- The merge input of `_collect_urls`: the explicit `urls` field followed
by the canonicalised body matches. -/
def merged_candidates (env : Env) (payload : EmailAnalysisRequest) :
    List String :=
  payload.urls ++ (env.url_matches payload.body).map canon_url

/-- Equivalence of findings up to a permutation of the evidence list; used
to state what survives a change of set-iteration order between runs. -/
def finding_equiv (f g : Finding) : Prop :=
  f.category = g.category ∧ f.description = g.description ∧
  f.severity = g.severity ∧ f.evidence.Perm g.evidence

/-! ## Concrete fixtures for witnesses and counterexamples -/

/-- A stub environment: identity address parsing, no resolvable domains, no
body matches, an empty (deterministic) reputation collaborator, and the
canonical set enumerations. -/
def stubEnv : Env :=
  { parse_addr := fun s => s
    domain_from_url := fun _ => none
    url_matches := fun _ => []
    lookup := fun _ => []
    urgent_phrases := URGENT_PHRASES
    sensitive_keywords := SENSITIVE_KEYWORDS }

/-- An empty request skeleton. -/
def emptyRequest : EmailAnalysisRequest :=
  { subject := "", body := "", sender := none, sender_name := none,
    reply_to := none, urls := [], attachments := [], headers := none }

/-- Domain oracle for the C3 witness: resolves the IP-literal URL to its
address and the other URL to a benign registrable domain. -/
def dfuC3 (u : String) : Option String :=
  if u = "http://10.0.0.1/login" then some "10.0.0.1"
  else some "fine.example"

/-- Environment for the C3 witness. -/
def envC3 : Env := { stubEnv with domain_from_url := dfuC3 }

/-- URL list for the C3 witness. -/
def urlsC3 : List String :=
  ["http://10.0.0.1/login", "https://fine.example/page"]

/-- The finding `_detect_suspicious_links` produces on `urlsC3`. -/
def fC3 : Finding :=
  { category := "Suspicious Links"
    description := "Potentially malicious URLs detected in message body."
    severity := RiskLevel.high
    evidence :=
      ["URL `http://10.0.0.1/login` uses raw IP address.",
       "URL `http://10.0.0.1/login` is not served over HTTPS."] }

/-- Request whose sender domain carries a blocklisted TLD and a known
misspelling pattern, but no reply-to and no URLs (C4). -/
def payloadC4 : EmailAnalysisRequest :=
  { emptyRequest with
    body := "hello there"
    sender := some "alerts@g00gle-secure.xyz" }

/-- Suffix oracle for the C4 witness (what `tldextract` returns on the
fixture domains). -/
def sfxC4 (d : String) : String :=
  if strEndsWith d ".xyz" then "xyz" else "com"

/-- Domain oracle for the C5 theorems: the fixture URL resolves to its
registrable domain. -/
def dfuC5 (u : String) : Option String :=
  if u = "http://phish.example/login" then some "phish.example" else none

/-- HTTP oracle for C5: every request fails with `httpx.HTTPError`, the
class the loop catches. -/
def httpErrC5 (_ : String) : Except String HttpResponse :=
  Except.error "connect timeout"

/-- HTTP oracle for C5: a 2xx response whose body is not JSON, so
`response.json()` raises outside the `try` block. -/
def httpUndecodableC5 (_ : String) : Except String HttpResponse :=
  Except.ok ⟨Except.error "Expecting value: line 1 column 1 (char 0)"⟩

/-- HTTP oracle for C5: a 2xx response whose body is valid JSON but not an
object, so `payload.get` raises `AttributeError` inside
`_parse_urlscan_response`. -/
def httpNonObjectC5 (_ : String) : Except String HttpResponse :=
  Except.ok ⟨Except.ok (Json.arr [])⟩

/-- Body for the C6 counterexample: two sensitive keywords far enough apart
that their context snippets differ. -/
def bodyC6 : String :=
  "password" ++ (⟨List.replicate 60 'x'⟩ : String) ++ "pin"

/-- Request for the C6 counterexample. -/
def payloadC6 : EmailAnalysisRequest := { emptyRequest with body := bodyC6 }

/-- First run's environment for C6: canonical set enumeration. -/
def envC6A : Env := stubEnv

/-- Second run's environment for C6: the same sensitive-keyword set under a
different iteration order (as another process would observe after string
hash randomisation). -/
def envC6B : Env :=
  { stubEnv with
    sensitive_keywords := "pin" :: SENSITIVE_KEYWORDS.erase "pin" }

/-- Request for the C7 witness, the spec's own scenario. -/
def payloadC7 : EmailAnalysisRequest :=
  { emptyRequest with
    body := "please confirm your password and social security number" }

/-- Environment for the C2 witness: the body match list contains the
explicit URL again plus a `www.` match. -/
def envC2 : Env :=
  { stubEnv with
    url_matches := fun _ => ["https://evil.example/a", "www.Evil.example/b"] }

/-- Request for the C2 witness. -/
def payloadC2 : EmailAnalysisRequest :=
  { emptyRequest with
    body := "see https://evil.example/a and www.Evil.example/b"
    urls := ["https://evil.example/a"] }

/-- Body for the C9 evaluation: twenty words, each carrying a run of three
identical characters that the buggy regex fails to flag. -/
def bodyC9 : String := String.intercalate " " (List.replicate 20 "therennn")

/-- Request for the C9 evaluation. -/
def payloadC9 : EmailAnalysisRequest := { emptyRequest with body := bodyC9 }

/-! ## Claim C1: scoring and risk thresholds -/

/-- C1: the aggregate score is the severity-weight sum capped at 100 (empty
findings give 0), it always lies in `[0, 100]`, and the risk level is
determined from the score alone by the fixed thresholds 60/30. -/
theorem c1_scoring (findings : List Finding) :
    (score_findings findings).1 =
      min 100 ((findings.map (fun f => severity_weight f.severity)).sum) ∧
    (score_findings findings).1 ≤ 100 ∧
    (findings = [] → (score_findings findings).1 = 0) ∧
    (score_findings findings).2 = risk_of_score (score_findings findings).1 ∧
    (∀ gs : List Finding,
      (score_findings gs).1 = (score_findings findings).1 →
      (score_findings gs).2 = (score_findings findings).2) := by
  have hrisk : ∀ l : List Finding,
      (score_findings l).2 = risk_of_score (score_findings l).1 :=
    fun l => rfl
  refine ⟨rfl, Nat.min_le_left 100 _, ?_, hrisk findings, ?_⟩
  · intro h; subst h; decide
  · intro gs h
    rw [hrisk gs, hrisk findings, h]

/-- Witness for C1 at concrete inputs. -/
theorem c1_scoring_witness :
    (score_findings []).1 = 0 ∧
    (score_findings [⟨"a", "b", RiskLevel.medium, []⟩]).2 =
      (score_findings [⟨"c", "d", RiskLevel.medium, []⟩]).2 :=
  ⟨(c1_scoring []).2.2.1 rfl,
   (c1_scoring [⟨"c", "d", RiskLevel.medium, []⟩]).2.2.2.2
     [⟨"a", "b", RiskLevel.medium, []⟩] (by decide)⟩

/-! ## Claim C10: recommendations are non-empty and duplicate-free -/

/-- C10: for every risk level, findings list and URL flag, the
recommendation list is non-empty (the generic caution when no rule fires)
and contains no two equal strings. -/
theorem c10_recommendations (risk : RiskLevel) (findings : List Finding)
    (has_urls : Bool) :
    build_recommendations risk findings has_urls ≠ [] ∧
    (build_recommendations risk findings has_urls).Nodup := by
  simp only [build_recommendations]
  by_cases h1 : risk = RiskLevel.high <;>
  by_cases h2 :
    (findings.any (fun f => f.category == "Sensitive Data Request")) = true <;>
  by_cases h3 : has_urls = true <;>
  by_cases h4 :
    (findings.any (fun f => f.category == "Sender Domain Mismatch")) = true <;>
  simp [h1, h2, h3, h4]

/-! ## Claim C8: typosquat check (code bug in the repeated-character regex) -/

/-- C8 evaluation: the pattern-list half of `_has_typosquatting_pattern`
works, but a domain whose dot-free form carries a run of three identical
characters is not flagged, because `r"(.)\\1\x7b2,\x7d"` matches a literal
backslash rather than a backreference. -/
theorem c8_typosquat_repeated_chars_eval :
    has_typosquatting_pattern "aaa.com" = false ∧
    repeated_char_run3 ("aaa.com".data.filter (· ≠ '.')) = true ∧
    has_typosquatting_pattern "xpaypal-secure.com" = true ∧
    hasCharBsOneOne "x\\11y".data = true := by decide

/-! ## Claim C9: unusual-token predicate (code bug in the same regex shape) -/

set_option maxRecDepth 4000 in
/-- C9 evaluation: the token `therennn` carries the run `nnn`, is not a
common word, has no digit, and scores only 2 rare bigrams against a
threshold of 3 — so the spec says "unusual" while `looks_unusual` says no;
a 20-word body of such tokens consequently produces no finding at all. -/
theorem c9_unusual_token_eval :
    looks_unusual "therennn" = false ∧
    repeated_char_run3 (strLower "therennn").data = true ∧
    COMMON_ENGLISH_WORDS.contains "therennn" = false ∧
    (alpha_words bodyC9).length = 20 ∧
    detect_language_anomalies payloadC9 = [] := by
  refine ⟨by decide, by decide, by decide, by decide, ?_⟩
  have hw : alpha_words payloadC9.body = List.replicate 20 "therennn" := by
    decide
  have hcount : (List.replicate 20 "therennn").countP looks_unusual = 0 := by
    decide
  have hpunct :
      countRuns (fun c => c == '?' || c == '!' || c == '.') 3
        payloadC9.body.data = 0 := by decide
  have hspace : countRuns (·.isWhitespace) 3 payloadC9.body.data = 0 := by
    decide
  simp only [detect_language_anomalies, hw, hpunct, hspace,
    estimate_spelling_issues, hcount]
  norm_num

/-! ## Claim C2: URL collection machinery -/

theorem mem_dedupStep {acc : List String} {y x : String} :
    x ∈ dedupStep acc y ↔ x ∈ acc ∨ x = y := by
  unfold dedupStep
  by_cases h : y ∈ acc
  · simp only [if_pos h]
    constructor
    · exact Or.inl
    · rintro (hx | rfl)
      · exact hx
      · exact h
  · simp [if_neg h]

theorem foldl_dedupStep_mem (l : List String) :
    ∀ acc x, x ∈ l.foldl dedupStep acc ↔ x ∈ acc ∨ x ∈ l := by
  induction l with
  | nil => simp
  | cons m t ih =>
    intro acc x
    simp only [List.foldl_cons, ih, mem_dedupStep, List.mem_cons]
    tauto

theorem nodup_dedupStep {acc : List String} (h : acc.Nodup) (y : String) :
    (dedupStep acc y).Nodup := by
  unfold dedupStep
  by_cases hy : y ∈ acc
  · simpa [if_pos hy] using h
  · simp only [if_neg hy]
    simpa [List.nodup_append, h] using hy

theorem foldl_dedupStep_nodup (l : List String) :
    ∀ acc : List String, acc.Nodup → (l.foldl dedupStep acc).Nodup := by
  induction l with
  | nil => intro acc h; simpa using h
  | cons m t ih =>
    intro acc h
    exact ih _ (nodup_dedupStep h m)

theorem foldl_dedupStep_decomp (l : List String) :
    ∀ acc : List String,
      ∃ t, l.foldl dedupStep acc = acc ++ t ∧ t.Sublist l := by
  induction l with
  | nil => intro acc; exact ⟨[], by simp⟩
  | cons m rest ih =>
    intro acc
    obtain ⟨t, ht, hsub⟩ := ih (dedupStep acc m)
    by_cases hm : m ∈ acc
    · refine ⟨t, ?_, hsub.trans (List.sublist_cons_self m rest)⟩
      simpa [dedupStep, if_pos hm] using ht
    · refine ⟨m :: t, ?_, List.Sublist.cons₂ m hsub⟩
      simp only [List.foldl_cons] at ht ⊢
      rw [ht, dedupStep, if_neg hm, List.append_assoc]
      rfl

theorem pyDedup_nodup (l : List String) : (pyDedup l).Nodup :=
  foldl_dedupStep_nodup l [] List.nodup_nil

theorem mem_pyDedup {l : List String} {x : String} :
    x ∈ pyDedup l ↔ x ∈ l := by
  unfold pyDedup
  rw [foldl_dedupStep_mem]
  simp

theorem pyDedup_sublist (l : List String) : (pyDedup l).Sublist l := by
  obtain ⟨t, ht, hsub⟩ := foldl_dedupStep_decomp l []
  unfold pyDedup
  rw [ht]
  simpa using hsub

theorem collect_urls_eq_pyDedup (env : Env) (payload : EmailAnalysisRequest) :
    collect_urls env payload = pyDedup (merged_candidates env payload) := by
  unfold collect_urls merged_candidates pyDedup
  rw [List.foldl_append, List.foldl_map]

/-- C2: `_collect_urls` is the order-preserving first-occurrence
deduplication of the explicit `urls` field followed by the canonicalised
body matches: the result is duplicate-free, preserves the relative order of
the merged input, starts with the deduplicated explicit list, contains
exactly the merged candidates, and holds exactly one entry for a URL fed
both ways. -/
theorem c2_collect_urls (env : Env) (payload : EmailAnalysisRequest) :
    collect_urls env payload = pyDedup (merged_candidates env payload) ∧
    (collect_urls env payload).Nodup ∧
    (collect_urls env payload).Sublist (merged_candidates env payload) ∧
    (∀ u, u ∈ collect_urls env payload ↔ u ∈ merged_candidates env payload) ∧
    (∃ extra, collect_urls env payload = pyDedup payload.urls ++ extra) ∧
    (∀ u, u ∈ payload.urls →
      u ∈ (env.url_matches payload.body).map canon_url →
      (collect_urls env payload).count u = 1) := by
  have heq := collect_urls_eq_pyDedup env payload
  have hnodup : (collect_urls env payload).Nodup := by
    rw [heq]; exact pyDedup_nodup _
  refine ⟨heq, hnodup, ?_, ?_, ?_, ?_⟩
  · rw [heq]; exact pyDedup_sublist _
  · intro u; rw [heq, mem_pyDedup]
  · obtain ⟨t, ht, _⟩ :=
      foldl_dedupStep_decomp
        ((env.url_matches payload.body).map canon_url) (pyDedup payload.urls)
    refine ⟨t, ?_⟩
    unfold collect_urls
    rw [← List.foldl_map canon_url dedupStep]
    exact ht
  · intro u hu _
    apply List.count_eq_one_of_mem hnodup
    rw [heq, mem_pyDedup]
    unfold merged_candidates
    exact List.mem_append_left _ hu

/-- Witness for C2: the same URL fed through `urls` and the body appears
exactly once, and the `www.` match is canonicalised. -/
theorem c2_collect_urls_witness :
    (collect_urls envC2 payloadC2).count "https://evil.example/a" = 1 ∧
    collect_urls envC2 payloadC2 =
      ["https://evil.example/a", "https://www.Evil.example/b"] :=
  ⟨(c2_collect_urls envC2 payloadC2).2.2.2.2.2 "https://evil.example/a"
      (by decide) (by decide),
   by decide⟩

/-! ## Claim C3: sticky severity escalation in the links detector -/

theorem suspicious_link_step_snd (dfu : String → Option String)
    (acc : List String × RiskLevel) (url : String) :
    (suspicious_link_step dfu acc url).2 =
      if url_danger dfu url then RiskLevel.high else acc.2 := by
  unfold suspicious_link_step url_danger
  cases hdom : dfu url with
  | none => simp
  | some d =>
    by_cases hempty : d = ""
    · simp [hempty]
    · by_cases hip : looks_like_ip d = true
      · simp [hempty, hip]
        split <;> rfl
      · by_cases htypo : has_typosquatting_pattern d = true
        · simp [hempty, hip, htypo]
          split <;> rfl
        · simp [hempty, hip, htypo]
          split <;> rfl

theorem foldl_suspicious_link_snd (dfu : String → Option String)
    (urls : List String) :
    ∀ acc : List String × RiskLevel,
      (urls.foldl (suspicious_link_step dfu) acc).2 =
        if urls.any (url_danger dfu) then RiskLevel.high else acc.2 := by
  induction urls with
  | nil => intro acc; simp
  | cons u rest ih =>
    intro acc
    simp only [List.foldl_cons, List.any_cons, ih,
      suspicious_link_step_snd]
    by_cases hd : url_danger dfu u = true <;>
      by_cases hr : rest.any (url_danger dfu) = true <;>
      simp [hd, hr]

/-- C3: when the Suspicious Links detector fires, the finding's severity is
high exactly when some URL contributed IP-literal or typosquat evidence,
and medium otherwise — the escalation is a fold that never drops back. -/
theorem c3_sticky_link_severity (env : Env)
    (payload : EmailAnalysisRequest) (urls : List String) (f : Finding)
    (h : detect_suspicious_links env payload urls = [f]) :
    f.severity =
      (if urls.any (url_danger env.domain_from_url) then RiskLevel.high
       else RiskLevel.medium) := by
  unfold detect_suspicious_links at h
  by_cases hempty : urls.isEmpty = true
  · simp [hempty] at h
  · simp only [hempty, if_neg, Bool.false_eq_true, if_false] at h
    set acc := urls.foldl (suspicious_link_step env.domain_from_url)
      ([], RiskLevel.medium) with hacc
    by_cases hev : (acc.1 ++
        (if 5 < urls.length then
          [s!"Email contains a high number of links ({toString urls.length})."]
         else [])).isEmpty = true
    · simp only [hev, if_true] at h
      exact absurd h (by simp)
    · simp only [hev, Bool.false_eq_true, if_false] at h
      obtain rfl := List.singleton_inj.mp h
      show acc.2 = _
      rw [hacc, foldl_suspicious_link_snd]

/-- Witness for C3 at a concrete IP-literal input. -/
theorem c3_sticky_link_severity_witness :
    fC3.severity =
      (if urlsC3.any (url_danger envC3.domain_from_url) then RiskLevel.high
       else RiskLevel.medium) :=
  c3_sticky_link_severity envC3 emptyRequest urlsC3 fC3 (by decide)

/-! ## Claim C4: sender-domain-alone checks -/

/-- Counterexample for C4 as stated: the request's sender domain contains
the misspelling pattern `g00gle` and a blocklisted TLD, yet the
Sender/Domain-Anomaly detector of the FastAPI engine records no evidence at
all — the sender-domain-alone checks do not exist in that detector. -/
theorem c4_claim_counterexample :
    payloadC4.sender = some "alerts@g00gle-secure.xyz" ∧
    strContains "g00gle-secure.xyz" "g00gle" = true ∧
    SUSPICIOUS_TLDS.contains ".xyz" = true ∧
    detect_sender_anomalies stubEnv payloadC4
      (collect_urls stubEnv payloadC4) = [] := by decide

theorem ite_singleton_ne_nil {c : Prop} [Decidable c] {s : String} :
    (if c then [s] else []) ≠ [] ↔ c := by
  by_cases h : c <;> simp [h]

theorem append_ne_nil_or {α} {a b : List α} :
    a ++ b ≠ [] ↔ a ≠ [] ∨ b ≠ [] := by
  by_cases ha : a = [] <;> by_cases hb : b = [] <;> simp [ha, hb]

theorem sender_issues_ne_nil (suffix_of : String → String)
    (domain : String) :
    sender_issues suffix_of domain ≠ [] ↔
      (SUSPICIOUS_TLDS.contains (tld_of suffix_of domain) = true ∨
       (∃ cl ∈ LEGITIMATE_DOMAINS, strContains domain cl.1 = true ∧
          ∀ lg ∈ cl.2, strContains domain lg = false) ∨
       3 < countChar '.' domain ∨
       hasDigitRun3 domain.data = true ∨
       (∃ m ∈ COMMON_MISSPELLINGS, strContains domain m = true)) := by
  have hg2 :
      (LEGITIMATE_DOMAINS.filterMap (fun cl =>
        if (strContains domain cl.1 &&
            !cl.2.any fun legit => strContains domain legit) = true then
          some (toString "Possible " ++ toString cl.1 ++
            toString " domain spoofing")
        else none)) ≠ [] ↔
      ∃ cl ∈ LEGITIMATE_DOMAINS, strContains domain cl.1 = true ∧
        ∀ lg ∈ cl.2, strContains domain lg = false := by
    rw [ne_eq, List.filterMap_eq_nil_iff]
    push_neg
    constructor
    · rintro ⟨cl, hcl, hne⟩
      refine ⟨cl, hcl, ?_⟩
      by_cases hcond : (strContains domain cl.1 &&
          !cl.2.any fun legit => strContains domain legit) = true
      · rw [Bool.and_eq_true] at hcond
        obtain ⟨hc, hb⟩ := hcond
        refine ⟨hc, ?_⟩
        intro lg hlg
        have hany :
            (cl.2.any fun legit => strContains domain legit) = false := by
          cases hh : cl.2.any fun legit => strContains domain legit
          · rfl
          · rw [hh] at hb; exact absurd hb (by decide)
        have := List.any_eq_false.mp hany lg hlg
        simpa using this
      · exact absurd (by simp [hcond]) hne
    · rintro ⟨cl, hcl, hc, hall⟩
      refine ⟨cl, hcl, ?_⟩
      have hany : (cl.2.any fun legit => strContains domain legit) = false :=
        List.any_eq_false.mpr (by intro lg hlg; simp [hall lg hlg])
      simp [hc, hany]
  unfold sender_issues
  simp only [append_ne_nil_or, ite_singleton_ne_nil, hg2,
    List.any_eq_true]
  rw [or_assoc, or_assoc, or_assoc]

theorem sender_reply_evidence_length_le (o1 o2 : Option String) :
    (sender_reply_evidence o1 o2).length ≤ 1 := by
  unfold sender_reply_evidence
  cases o1 <;> cases o2 <;> simp
  split <;> simp

theorem sender_url_evidence_length_le (o : Option String)
    (ud : List String) :
    (sender_url_evidence o ud).length ≤ 1 := by
  unfold sender_url_evidence
  cases o <;> simp
  split <;> simp

/-- C4 amended: the sender-domain-alone checks live in
`PhishingDetector._analyze_sender` only.  For a sender containing `@`, its
issue list is `sender_issues` on the part after the first `@`, detection
fires exactly when one of the five checks fires — suspicious TLD, brand
containment without a legitimate domain, more than 3 dots, a run of 3 or
more consecutive digits (not identical characters), or a known misspelling
— while the FastAPI detector's finding never carries more than the two
comparison evidences. -/
theorem c4_sender_checks_amended (suffix_of : String → String)
    (sender : String) (hne : sender ≠ "")
    (hat : strContains sender "@" = true) :
    (analyze_sender suffix_of sender).issues =
      sender_issues suffix_of ⟨afterFirstCL '@' sender.data⟩ ∧
    ((analyze_sender suffix_of sender).detected = true ↔
      (SUSPICIOUS_TLDS.contains
          (tld_of suffix_of ⟨afterFirstCL '@' sender.data⟩) = true ∨
       (∃ cl ∈ LEGITIMATE_DOMAINS,
          strContains ⟨afterFirstCL '@' sender.data⟩ cl.1 = true ∧
          ∀ lg ∈ cl.2,
            strContains ⟨afterFirstCL '@' sender.data⟩ lg = false) ∨
       3 < countChar '.' ⟨afterFirstCL '@' sender.data⟩ ∨
       hasDigitRun3 (afterFirstCL '@' sender.data) = true ∨
       (∃ m ∈ COMMON_MISSPELLINGS,
          strContains ⟨afterFirstCL '@' sender.data⟩ m = true))) ∧
    (∀ (env : Env) (payload : EmailAnalysisRequest) (urls : List String)
       (f : Finding), f ∈ detect_sender_anomalies env payload urls →
         f.evidence.length ≤ 2) := by
  have hbase :
      analyze_sender suffix_of sender =
        { detected :=
            !(sender_issues suffix_of ⟨afterFirstCL '@' sender.data⟩).isEmpty
          issues := sender_issues suffix_of ⟨afterFirstCL '@' sender.data⟩
          domain := some (⟨afterFirstCL '@' sender.data⟩ : String)
          severity := some (if 2 ≤ (sender_issues suffix_of
              ⟨afterFirstCL '@' sender.data⟩).length then "high"
            else if (sender_issues suffix_of
              ⟨afterFirstCL '@' sender.data⟩).length = 1 then "medium"
            else "low") } := by
    unfold analyze_sender
    rw [if_neg hne, hat]
    simp
  refine ⟨by rw [hbase], ?_, ?_⟩
  · rw [hbase, ← sender_issues_ne_nil suffix_of]
    simp [List.isEmpty_iff]
  · intro env payload urls f hf
    simp only [detect_sender_anomalies] at hf
    split at hf
    · simp at hf
    · rw [List.mem_singleton] at hf
      subst hf
      simp only [List.length_append]
      have h1 := sender_reply_evidence_length_le
        (opt_domain (normalize_email env.parse_addr payload.sender))
        (opt_domain (normalize_email env.parse_addr payload.reply_to))
      have h2 := sender_url_evidence_length_le
        (opt_domain (normalize_email env.parse_addr payload.sender))
        ((urls.filterMap env.domain_from_url).filter (· ≠ ""))
      omega

/-- Witness for C4's amended theorem: the fixture sender is detected by the
standalone analysis through the blocklisted TLD. -/
theorem c4_sender_checks_amended_witness :
    (analyze_sender sfxC4 "alerts@g00gle-secure.xyz").detected = true :=
  ((c4_sender_checks_amended sfxC4 "alerts@g00gle-secure.xyz"
      (by decide) (by decide)).2.1).mpr (Or.inl (by decide))

/-! ## Claim C5: reputation lookup contract -/

theorem except_bind_ok {α β : Type} {x : Except String α}
    {f : α → Except String β} {b : β} :
    (x >>= f) = Except.ok b ↔ ∃ a, x = Except.ok a ∧ f a = Except.ok b := by
  cases x <;> simp [Bind.bind, Except.bind]

theorem parse_ok_url {url : String} {payload : Json} {ins : URLInsight}
    (h : parse_urlscan_response url payload = Except.ok ins) :
    ins.url = url := by
  unfold parse_urlscan_response at h
  repeat' split at h
  all_goals cases h
  all_goals rfl

theorem insight_ok_url (dfu : String → Option String)
    (http : String → Except String HttpResponse) :
    ∀ u ins, insight_for_url dfu http u = Except.ok ins → ins.url = u := by
  intro u ins h
  unfold insight_for_url at h
  repeat' split at h
  all_goals first
    | exact parse_ok_url h
    | (cases h; rfl)
    | cases h

theorem getD_map_url {g : String → URLInsight}
    (hg : ∀ u, (g u).url = u) (l : List String) :
    ∀ i : Nat, ((l.map g).getD i (unavailable_insight "")).url =
      l.getD i "" := by
  induction l with
  | nil => intro i; rfl
  | cons x t ih =>
    intro i
    cases i with
    | zero => simpa using hg x
    | succ j => simpa using ih j

theorem mapM_ok_urls {g : String → Except String URLInsight}
    (hg : ∀ u ins, g u = Except.ok ins → ins.url = u) :
    ∀ (l : List String) (out : List URLInsight),
      l.mapM g = Except.ok out →
      out.length = l.length ∧
      (∀ i : Nat, (out.getD i (unavailable_insight "")).url =
        l.getD i "") := by
  intro l
  induction l with
  | nil =>
    intro out h
    rw [List.mapM_nil] at h
    cases h
    exact ⟨rfl, fun i => rfl⟩
  | cons x t ih =>
    intro out h
    rw [List.mapM_cons] at h
    obtain ⟨a, ha, h⟩ := except_bind_ok.mp h
    obtain ⟨as, has, h⟩ := except_bind_ok.mp h
    cases h
    obtain ⟨hlen, hurl⟩ := ih as has
    refine ⟨by simp [hlen], ?_⟩
    intro i
    cases i with
    | zero => simpa using hg x a ha
    | succ j => simpa using hurl j

/-- C5 amended: without a configured key the lookup returns one
`unavailable` insight per URL; with a key it maps each URL through the
per-URL step, where a caught `httpx.HTTPError` yields a status-`error`
insight with diagnostic details, while an uncaught decode failure of a 2xx
body escapes as an exception aborting the whole lookup; whenever the
lookup does return, it returns one insight per URL, in input order. -/
theorem c5_lookup_urls_amended (api_key : Option String)
    (dfu : String → Option String)
    (http : String → Except String HttpResponse)
    (urls : List String) :
    ((api_key = none ∨ api_key = some "") →
      lookup_urls api_key dfu http urls =
        Except.ok (urls.map unavailable_insight)) ∧
    (∀ k, api_key = some k → k ≠ "" →
      lookup_urls api_key dfu http urls =
        urls.mapM (insight_for_url dfu http)) ∧
    (∀ url domain exc, dfu url = some domain → domain ≠ "" →
      http domain = Except.error exc →
      insight_for_url dfu http url =
        Except.ok (http_error_insight url exc)) ∧
    (∀ url domain response, dfu url = some domain → domain ≠ "" →
      http domain = Except.ok response →
      ∀ exc, response.json = Except.error exc →
      insight_for_url dfu http url = Except.error exc) ∧
    (∀ insights, lookup_urls api_key dfu http urls = Except.ok insights →
      insights.length = urls.length ∧
      (∀ i : Nat, (insights.getD i (unavailable_insight "")).url =
        urls.getD i "")) := by
  refine ⟨?_, ?_, ?_, ?_, ?_⟩
  · rintro (rfl | rfl) <;> cases urls <;> simp [lookup_urls]
  · rintro k rfl hk
    cases urls with
    | nil => rfl
    | cons x t => simp [lookup_urls, hk]
  · intro url domain exc h1 h2 h3
    unfold insight_for_url
    rw [h1]
    simp [h2, h3]
  · intro url domain response h1 h2 h3 exc hj
    unfold insight_for_url
    rw [h1]
    simp [h2, h3, hj]
  · intro insights h
    by_cases hu : urls.isEmpty = true
    · unfold lookup_urls at h
      rw [if_pos hu] at h
      cases h
      rw [List.isEmpty_iff] at hu
      subst hu
      exact ⟨rfl, fun i => rfl⟩
    · unfold lookup_urls at h
      rw [if_neg hu] at h
      cases api_key with
      | none =>
        cases h
        exact ⟨(List.length_map urls unavailable_insight).symm ▸ rfl,
          getD_map_url (fun u => rfl) urls⟩
      | some k =>
        dsimp only at h
        by_cases hk : k = ""
        · rw [if_pos hk] at h
          cases h
          exact ⟨(List.length_map urls unavailable_insight).symm ▸ rfl,
            getD_map_url (fun u => rfl) urls⟩
        · rw [if_neg hk] at h
          exact mapM_ok_urls (insight_ok_url dfu http) urls insights h

/-- Counterexample for C5 as stated: with a key configured, one URL whose
2xx response body is not JSON makes the lookup raise
(`json.JSONDecodeError` from `response.json()`, which sits outside the
`except httpx.HTTPError` block) instead of producing an `error` insight;
a valid-JSON non-object body likewise aborts, with `AttributeError` from
`payload.get`.  So the lookup can raise, and such a per-URL API failure
does abort the analysis. -/
theorem c5_claim_counterexample :
    lookup_urls (some "key") dfuC5 httpUndecodableC5
      ["http://phish.example/login"] =
      Except.error "Expecting value: line 1 column 1 (char 0)" ∧
    lookup_urls (some "key") dfuC5 httpNonObjectC5
      ["http://phish.example/login"] =
      Except.error "AttributeError: 'list' object has no attribute 'get'" ∧
    httpUndecodableC5 "phish.example" =
      Except.ok ⟨Except.error "Expecting value: line 1 column 1 (char 0)"⟩ ∧
    httpNonObjectC5 "phish.example" = Except.ok ⟨Except.ok (Json.arr [])⟩ :=
  ⟨rfl, rfl, rfl, rfl⟩

/-- Witness for C5's amended theorem: the no-key path yields exactly one
`unavailable` insight for one URL, and a caught network failure yields an
`error` insight rather than aborting. -/
theorem c5_lookup_urls_amended_witness :
    lookup_urls none dfuC5 httpErrC5 ["http://phish.example/login"] =
      Except.ok [unavailable_insight "http://phish.example/login"] ∧
    insight_for_url dfuC5 httpErrC5 "http://phish.example/login" =
      Except.ok
        (http_error_insight "http://phish.example/login"
          "connect timeout") :=
  ⟨(c5_lookup_urls_amended none dfuC5 httpErrC5
      ["http://phish.example/login"]).1 (Or.inl rfl),
   (c5_lookup_urls_amended (some "key") dfuC5 httpErrC5
      ["http://phish.example/login"]).2.2.1 "http://phish.example/login"
      "phish.example" "connect timeout" (by decide) (by decide) rfl⟩

/-! ## Claim C7: sensitive-data detector -/

theorem findCL_isSome_of_substr {needle : List Char} :
    ∀ {hay : List Char}, substrCL needle hay = true →
      (findCL needle hay).isSome := by
  intro hay
  induction hay with
  | nil =>
    intro h
    unfold substrCL at h
    unfold findCL
    simp [h]
  | cons c t ih =>
    intro h
    unfold substrCL at h
    unfold findCL
    rcases Bool.or_eq_true_iff.mp h with hs | hs
    · simp [hs]
    · by_cases hh : startsWithCL needle (c :: t) = true
      · simp [hh]
      · simp only [hh, Bool.false_eq_true, if_false]
        simpa using ih hs

theorem filterMap_length_of_all_isSome {α β : Type} (f : α → Option β) :
    ∀ l : List α, (∀ a ∈ l, (f a).isSome) →
      (l.filterMap f).length = l.length := by
  intro l
  induction l with
  | nil => intro _; rfl
  | cons a t ih =>
    intro h
    have ha := h a (List.mem_cons_self a t)
    obtain ⟨b, hb⟩ := Option.isSome_iff_exists.mp ha
    rw [List.filterMap_cons, hb]
    simp only [List.length_cons]
    rw [ih (fun x hx => h x (List.mem_cons_of_mem a hx))]

theorem context_snippet_isSome_of_hit (env : Env)
    (payload : EmailAnalysisRequest) (kw : String)
    (hkw : kw ∈ sensitive_hits env payload) :
    (context_snippet payload.body kw).isSome := by
  unfold sensitive_hits at hkw
  have hc := (List.mem_filter.mp hkw).2
  unfold context_snippet
  have := findCL_isSome_of_substr
    (show substrCL kw.data (strLower payload.body).data = true from hc)
  unfold strFindOpt
  obtain ⟨k, hk⟩ := Option.isSome_iff_exists.mp this
  rw [hk]
  rfl

/-- C7: the Sensitive Data Request detector fires exactly when some keyword
occurs in the case-folded body; when it fires it produces exactly one
finding, always of high severity, whose evidence has one trimmed window-40
context snippet around the first occurrence of each matched keyword (the
bare keyword list being only a fallback for an empty snippet list). -/
theorem c7_sensitive_requests (env : Env) (payload : EmailAnalysisRequest) :
    (detect_sensitive_requests env payload = [] ↔
      sensitive_hits env payload = []) ∧
    (sensitive_hits env payload ≠ [] →
      detect_sensitive_requests env payload =
        [{ category := "Sensitive Data Request"
           description :=
             "Email references requests for sensitive or credential information."
           severity := RiskLevel.high
           evidence :=
             extract_context payload.body (sensitive_hits env payload) }] ∧
      (extract_context payload.body (sensitive_hits env payload)).length =
        (sensitive_hits env payload).length ∧
      (∀ kw ∈ sensitive_hits env payload,
        ∃ start, strFindOpt (strLower payload.body) kw = some start ∧
          context_snippet payload.body kw =
            some (pyStrip (strSlice payload.body (start - 40)
              (start + kw.length + 40))))) := by
  have hlen : (extract_context payload.body
      (sensitive_hits env payload)).length =
      (sensitive_hits env payload).length := by
    unfold extract_context
    exact filterMap_length_of_all_isSome _ _
      (fun kw hkw => context_snippet_isSome_of_hit env payload kw hkw)
  constructor
  · unfold detect_sensitive_requests
    by_cases h : (sensitive_hits env payload).isEmpty = true
    · simp [h, List.isEmpty_iff.mp h]
    · simp only [h, Bool.false_eq_true, if_false]
      simp only [List.isEmpty_iff] at h
      simp [h]
  · intro hne
    have hempty : (sensitive_hits env payload).isEmpty = false := by
      cases hh : (sensitive_hits env payload).isEmpty
      · rfl
      · exact absurd (List.isEmpty_iff.mp hh) hne
    have hsnips : extract_context payload.body
        (sensitive_hits env payload) ≠ [] := by
      intro hnil
      have := hlen
      rw [hnil] at this
      exact hne (List.length_eq_zero.mp this.symm)
    refine ⟨?_, hlen, ?_⟩
    · unfold detect_sensitive_requests
      simp only [hempty, Bool.false_eq_true, if_false]
      have : (extract_context payload.body
          (sensitive_hits env payload)).isEmpty = false := by
        cases hh : (extract_context payload.body
            (sensitive_hits env payload)).isEmpty
        · rfl
        · exact absurd (List.isEmpty_iff.mp hh) hsnips
      simp [this]
    · intro kw hkw
      have hsome := context_snippet_isSome_of_hit env payload kw hkw
      unfold context_snippet at hsome ⊢
      cases hf : strFindOpt (strLower payload.body) kw with
      | none => rw [hf] at hsome; simp at hsome
      | some start => exact ⟨start, rfl, rfl⟩

/-- Witness for C7 on the spec's own scenario body. -/
theorem c7_sensitive_requests_witness :
    detect_sensitive_requests stubEnv payloadC7 =
      [{ category := "Sensitive Data Request"
         description :=
           "Email references requests for sensitive or credential information."
         severity := RiskLevel.high
         evidence :=
           extract_context payloadC7.body
             (sensitive_hits stubEnv payloadC7) }] :=
  ((c7_sensitive_requests stubEnv payloadC7).2 (by decide)).1

/-! ## Claim C6: run-to-run stability of the analysis -/

/-- Counterexample for C6 as stated: the two environments agree on every
collaborator and hold the same sensitive-keyword set, merely enumerated in
two different orders (as two Python processes would under string hash
randomisation), yet the two analyses of the identical request differ — the
Sensitive Data Request finding's evidence snippets come out in a different
order. -/
theorem c6_claim_counterexample :
    envC6A.sensitive_keywords.Perm envC6B.sensitive_keywords ∧
    envC6B.urgent_phrases = envC6A.urgent_phrases ∧
    envC6B.parse_addr = envC6A.parse_addr ∧
    envC6B.domain_from_url = envC6A.domain_from_url ∧
    envC6B.url_matches = envC6A.url_matches ∧
    envC6B.lookup = envC6A.lookup ∧
    analyze_email envC6A payloadC6 ≠ analyze_email envC6B payloadC6 :=
  ⟨List.perm_cons_erase (by decide), rfl, rfl, rfl, rfl, rfl, by decide⟩

theorem analyze_email_def (env : Env) (payload : EmailAnalysisRequest) :
    analyze_email env payload =
      { overall_risk := (score_findings (all_findings env payload)).2
        score := (score_findings (all_findings env payload)).1
        findings := all_findings env payload
        url_insights := if (collect_urls env payload).isEmpty then []
          else env.lookup (collect_urls env payload)
        recommendations := build_recommendations
          (score_findings (all_findings env payload)).2
          (all_findings env payload)
          (!(collect_urls env payload).isEmpty) } := rfl

theorem score_findings_fst (l : List Finding) :
    (score_findings l).1 =
      min 100 ((l.map (fun f => severity_weight f.severity)).sum) := rfl

theorem score_findings_snd (l : List Finding) :
    (score_findings l).2 = risk_of_score (score_findings l).1 := rfl

theorem finding_equiv_refl (f : Finding) : finding_equiv f f :=
  ⟨rfl, rfl, rfl, List.Perm.refl _⟩

theorem forall2_finding_refl (l : List Finding) :
    List.Forall₂ finding_equiv l l :=
  List.forall₂_same.mpr (fun x _ => finding_equiv_refl x)

theorem forall2_weights {l l' : List Finding}
    (h : List.Forall₂ finding_equiv l l') :
    l.map (fun f => severity_weight f.severity) =
      l'.map (fun f => severity_weight f.severity) := by
  induction h with
  | nil => rfl
  | cons h1 _ ih => rw [List.map_cons, List.map_cons, h1.2.2.1, ih]

theorem forall2_any_category {l l' : List Finding}
    (h : List.Forall₂ finding_equiv l l') (c : String) :
    l.any (fun f => f.category == c) =
      l'.any (fun f => f.category == c) := by
  induction h with
  | nil => rfl
  | cons h1 _ ih => simp only [List.any_cons, h1.1, ih]

theorem detect_urgency_perm (env env' : Env)
    (payload : EmailAnalysisRequest)
    (h : env'.urgent_phrases.Perm env.urgent_phrases) :
    detect_urgency env' payload = detect_urgency env payload := by
  have hperm := h.filter (fun phrase =>
    strContains (strLower (payload.subject ++ "\n" ++ payload.body))
      phrase && decide (3 < phrase.length))
  have hempty := hperm.isEmpty_eq
  have hsort := sortStrs_eq_of_perm hperm
  simp only [detect_urgency, hempty, hsort]

theorem detect_sensitive_forall2 (env env' : Env)
    (payload : EmailAnalysisRequest)
    (h : env'.sensitive_keywords.Perm env.sensitive_keywords) :
    List.Forall₂ finding_equiv (detect_sensitive_requests env' payload)
      (detect_sensitive_requests env payload) := by
  have hhits : (sensitive_hits env' payload).Perm
      (sensitive_hits env payload) := h.filter _
  have hempty := hhits.isEmpty_eq
  unfold detect_sensitive_requests
  by_cases he : (sensitive_hits env payload).isEmpty = true
  · have he' := hempty.trans he
    simp only [he, he', if_true]
    exact List.Forall₂.nil
  · have he' : ¬(sensitive_hits env' payload).isEmpty = true := by
      rw [hempty]; exact he
    simp only [he, he', if_neg, if_false]
    refine List.Forall₂.cons ⟨rfl, rfl, rfl, ?_⟩ List.Forall₂.nil
    have hsn : (extract_context payload.body
        (sensitive_hits env' payload)).Perm
        (extract_context payload.body (sensitive_hits env payload)) :=
      hhits.filterMap _
    have hsne := hsn.isEmpty_eq
    by_cases hse : (extract_context payload.body
        (sensitive_hits env payload)).isEmpty = true
    · have hse' := hsne.trans hse
      rw [if_pos hse', if_pos hse]
      exact hhits
    · have hse' : ¬(extract_context payload.body
          (sensitive_hits env' payload)).isEmpty = true := by
        rw [hsne]; exact hse
      rw [if_neg hse', if_neg hse]
      exact hsn

theorem all_findings_forall2 (env env' : Env)
    (payload : EmailAnalysisRequest)
    (hpa : env'.parse_addr = env.parse_addr)
    (hdfu : env'.domain_from_url = env.domain_from_url)
    (hum : env'.url_matches = env.url_matches)
    (hurg : env'.urgent_phrases.Perm env.urgent_phrases)
    (hsen : env'.sensitive_keywords.Perm env.sensitive_keywords) :
    List.Forall₂ finding_equiv (all_findings env' payload)
      (all_findings env payload) := by
  have hurls : collect_urls env' payload = collect_urls env payload := by
    unfold collect_urls
    rw [hum]
  have hsd_eq :
      detect_sender_anomalies env' payload (collect_urls env' payload) =
        detect_sender_anomalies env payload (collect_urls env payload) := by
    rw [hurls]
    unfold detect_sender_anomalies
    rw [hpa, hdfu]
  have hli_eq :
      detect_suspicious_links env' payload (collect_urls env' payload) =
        detect_suspicious_links env payload (collect_urls env payload) := by
    rw [hurls]
    unfold detect_suspicious_links
    rw [hdfu]
  unfold all_findings
  refine List.rel_append (List.rel_append (List.rel_append
    (List.rel_append (List.rel_append ?_ ?_) ?_) ?_) ?_) ?_
  · rw [detect_urgency_perm env env' payload hurg]
    exact forall2_finding_refl _
  · exact detect_sensitive_forall2 env env' payload hsen
  · rw [hsd_eq]; exact forall2_finding_refl _
  · rw [hli_eq]; exact forall2_finding_refl _
  · exact forall2_finding_refl _
  · exact forall2_finding_refl _

/-- C6 amended: across two runs whose keyword-set iteration orders may
differ (but whose collaborators agree), the analyses of an identical
request agree on score, risk level, URL insights and recommendations, and
their findings agree pointwise up to a permutation of each finding's
evidence list (only the Sensitive Data Request evidence order can actually
move). -/
theorem c6_stable_analysis_amended (env env' : Env)
    (hpa : env'.parse_addr = env.parse_addr)
    (hdfu : env'.domain_from_url = env.domain_from_url)
    (hum : env'.url_matches = env.url_matches)
    (hlk : env'.lookup = env.lookup)
    (hurg : env'.urgent_phrases.Perm env.urgent_phrases)
    (hsen : env'.sensitive_keywords.Perm env.sensitive_keywords)
    (payload : EmailAnalysisRequest) :
    (analyze_email env' payload).score =
      (analyze_email env payload).score ∧
    (analyze_email env' payload).overall_risk =
      (analyze_email env payload).overall_risk ∧
    (analyze_email env' payload).url_insights =
      (analyze_email env payload).url_insights ∧
    (analyze_email env' payload).recommendations =
      (analyze_email env payload).recommendations ∧
    List.Forall₂ finding_equiv (analyze_email env' payload).findings
      (analyze_email env payload).findings := by
  have hurls : collect_urls env' payload = collect_urls env payload := by
    unfold collect_urls
    rw [hum]
  have hfind := all_findings_forall2 env env' payload hpa hdfu hum hurg hsen
  have hscore : (score_findings (all_findings env' payload)).1 =
      (score_findings (all_findings env payload)).1 := by
    rw [score_findings_fst, score_findings_fst, forall2_weights hfind]
  have hrisk : (score_findings (all_findings env' payload)).2 =
      (score_findings (all_findings env payload)).2 := by
    rw [score_findings_snd, score_findings_snd, hscore]
  rw [analyze_email_def, analyze_email_def]
  dsimp only
  refine ⟨hscore, hrisk, ?_, ?_, hfind⟩
  · rw [hurls, hlk]
  · unfold build_recommendations
    rw [hurls, forall2_any_category hfind "Sensitive Data Request",
      forall2_any_category hfind "Sender Domain Mismatch", hrisk]

/-- Witness for C6's amended theorem on the counterexample pair: the two
responses agree on score, risk and recommendations even though the
evidence order differs. -/
theorem c6_stable_analysis_amended_witness :
    (analyze_email envC6B payloadC6).score =
      (analyze_email envC6A payloadC6).score ∧
    (analyze_email envC6B payloadC6).overall_risk =
      (analyze_email envC6A payloadC6).overall_risk ∧
    (analyze_email envC6B payloadC6).recommendations =
      (analyze_email envC6A payloadC6).recommendations := by
  have h := c6_stable_analysis_amended envC6A envC6B rfl rfl rfl rfl
    (by decide) ((List.perm_cons_erase (by decide)).symm) payloadC6
  exact ⟨h.1, h.2.1, h.2.2.2.1⟩
